import Mathlib

/-
  Verification development for the command-line shell in src/shell.c.

  The C source is shallowly embedded: the pure scanning and resolution logic
  becomes Lean functions on lists of strings, the side-effecting parts
  (open/dup2, fork/exec, signal delivery, the read-eval loop) become explicit
  state-passing functions whose outputs record which system effects the code
  performs.  Machine-level facts that the embedding relies on are noted next
  to each definition, with the line numbers of the C code they translate.
-/

/-- First character of a C string: dereferencing the pointer reads the first
byte; the empty string reads the terminating NUL, modeled as `none`. -/
def firstChar (s : String) : Option Char :=
  s.data.head?

/-- Tests whether a string contains the path separator, translating
`strchr(s, '/') != NULL` at src/shell.c:155. -/
def hasSlash (s : String) : Bool :=
  s.data.contains '/'

/-! ### Open flags

Numeric values of the flag and mode constants used by the two `open` calls at
src/shell.c:144 and src/shell.c:149 (Linux values: O_RDONLY = 0, O_WRONLY = 1,
O_CREAT = 0o100, O_TRUNC = 0o1000, S_IRWXU = 0o700). -/

def O_RDONLY : Nat := 0

def O_WRONLY : Nat := 1

def O_CREAT : Nat := 64

def O_TRUNC : Nat := 512

def S_IRWXU : Nat := 448

/-- A redirection action recorded while scanning the token list.  The filename
is the token following the operator token; `none` models the NULL pointer
returned by the tokenizer for an out-of-range index (operator in last
position, src/shell.c:143 and :148 read `tokens_get_token(tokens, i+1)`). -/
inductive Redir
  | input (file : Option String)
  | output (file : Option String)
deriving DecidableEq

/-- The scanning pass of `excute` (src/shell.c:137-154): walks the token list
left to right; a token whose first character is neither `>` nor `<` is
appended to argv; a token whose first character is `<` records an input
redirection whose filename is the following token and skips it; a token whose
first character is `>` does the same for an output redirection.  Returns the
built argv together with the redirection actions in the order performed. -/
def planAux : List String → List String × List Redir
  | [] => ([], [])
  | [t] =>
    if firstChar t = some '<' then ([], [Redir.input none])
    else if firstChar t = some '>' then ([], [Redir.output none])
    else ([t], [])
  | t :: f :: rest =>
    if firstChar t = some '<' then
      ((planAux rest).1, Redir.input (some f) :: (planAux rest).2)
    else if firstChar t = some '>' then
      ((planAux rest).1, Redir.output (some f) :: (planAux rest).2)
    else
      (t :: (planAux (f :: rest)).1, (planAux (f :: rest)).2)

/-- The open call a redirection action performs in the child, translated from
src/shell.c:144 ( `open(infile, O_RDONLY)` , no mode argument) and
src/shell.c:149 ( `open(outfile, O_WRONLY | O_CREAT, S_IRWXU)` ). -/
structure OpenCall where
  path : Option String
  flags : Nat
  mode : Option Nat
deriving DecidableEq

def openCallOf : Redir → OpenCall
  | Redir.input f => ⟨f, O_RDONLY, none⟩
  | Redir.output f => ⟨f, O_WRONLY ||| O_CREAT, some S_IRWXU⟩

/-- Modelled from the spec: the spec states that output redirection opens the
target in create-or-truncate mode, that is with both the create flag and the
truncate flag set, in addition to write-only access. -/
def specOutputFlags : Nat := O_WRONLY ||| O_CREAT ||| O_TRUNC

/-- Environment of oracles for the system calls the child performs: the value
of the PATH variable ( `none` models an absent variable, i.e. `getenv`
returning NULL), the existence test `access(p, F_OK) == 0` , whether the two
kinds of `open` succeed on a given path, and whether `execv` succeeds on a
given resolved program path. -/
structure Env where
  path : Option String
  fexists : String → Bool
  openInOk : String → Bool
  openOutOk : String → Bool
  execOk : String → Bool

/-- Source of a standard stream in the child: either the stream inherited
from the shell, or a file installed by a successful open plus dup2. -/
inductive StreamSrc
  | inherited
  | file (path : String)
deriving DecidableEq

/-- Applies one redirection action to the child standard streams, translating
src/shell.c:142-152.  A failed open returns fd = -1 and `dup2(-1, n)` fails
with EBADF, leaving the stream unchanged; the code checks neither call, so a
failure silently keeps the previous stream.  `open(NULL, ...)` (filename
`none` , the out-of-range token) likewise fails. -/
def applyRedir (env : Env) (st : StreamSrc × StreamSrc) : Redir → StreamSrc × StreamSrc
  | Redir.input f =>
    match f with
    | none => st
    | some p => if env.openInOk p then (StreamSrc.file p, st.2) else st
  | Redir.output f =>
    match f with
    | none => st
    | some p => if env.openOutOk p then (st.1, StreamSrc.file p) else st

/-! ### PATH resolution -/

/-- Splits a character list at every occurrence of `sep` , keeping empty
pieces; auxiliary for `splitSegs` . -/
def splitCharsAux (sep : Char) : List Char → List Char → List (List Char)
  | [], acc => [acc.reverse]
  | c :: cs, acc =>
    if c = sep then acc.reverse :: splitCharsAux sep cs []
    else splitCharsAux sep cs (c :: acc)

/-- Splits the PATH value the way the `strtok(path2, ":")` loop at
src/shell.c:106-124 does: maximal runs of the separator count as one
delimiter and no empty segments are produced (dropping the empty pieces of a
plain split gives exactly the `strtok` segment sequence). -/
def splitSegs (p : String) : List String :=
  ((splitCharsAux ':' p.data []).map (fun cs => String.mk cs)).filter
    (fun s => s ≠ "")

/-- First candidate `seg ++ "/" ++ name` that exists, over a list of PATH
segments; translates the `while ((path_seg = strtok(NULL, ":")))` loop at
src/shell.c:115-124, and `none` translates the `return NULL` at
src/shell.c:127. -/
def firstExisting (fexists : String → Bool) (name : String) : List String → Option String
  | [] => none
  | seg :: rest =>
    if fexists (seg ++ "/" ++ name) then some (seg ++ "/" ++ name)
    else firstExisting fexists name rest

/-- Embeds `resolve` (src/shell.c:101-128).  The outer `Option` distinguishes
a crash from a normal return: when PATH is absent, `getenv` returns NULL and
`strlen(path)` at line 104 dereferences it; when PATH is empty or consists
only of separators, `strtok` returns NULL and `strlen(path_seg)` at line 107
dereferences it — both are modeled as the result `none` .  A normal return is
`some r` , with `r = none` for the NULL not-found return.  The first segment
is checked at lines 107-114 and the remaining segments by the loop, which is
exactly `firstExisting` on the segment list. -/
def resolve (path : Option String) (fexists : String → Bool) (name : String) :
    Option (Option String) :=
  match path with
  | none => none
  | some p =>
    match splitSegs p with
    | [] => none
    | seg :: rest =>
      if fexists (seg ++ "/" ++ name) then some (some (seg ++ "/" ++ name))
      else some (firstExisting fexists name rest)

/-! ### The child: excute -/

/-- Outcome of running `excute` (src/shell.c:131-161) in the child.
`execed p rest sin sout` means `execv` succeeded: the program image is
replaced by `p` with argument vector `p :: rest` (argv[0] is overwritten with
the resolved path at line 156) and standard streams `sin` / `sout` .
`execFailed a0 rest sin sout` means `execv` returned -1 (its only possible
return value), so `excute` returns -1; `a0` is the argv[0] actually passed
( `none` when resolution returned NULL and `execv(NULL, argv)` failed with
EFAULT).  `crash` models undefined behavior: argv[0] == NULL reaching
`strchr` at line 155, or the NULL dereference inside `resolve` . -/
inductive ChildOutcome
  | crash
  | execed (prog : String) (argvRest : List String) (stdin stdout : StreamSrc)
  | execFailed (argv0 : Option String) (argvRest : List String) (stdin stdout : StreamSrc)
deriving DecidableEq

/-- Embeds `excute` (src/shell.c:131-161): scan the tokens building argv and
applying each redirection in order, then resolve argv[0] through PATH when it
has no separator, then call `execv` . -/
def excute (env : Env) (tokens : List String) : ChildOutcome :=
  let pr := planAux tokens
  let streams := pr.2.foldl (applyRedir env) (StreamSrc.inherited, StreamSrc.inherited)
  match pr.1 with
  | [] => ChildOutcome.crash
  | a0 :: rest =>
    if hasSlash a0 then
      if env.execOk a0 then ChildOutcome.execed a0 rest streams.1 streams.2
      else ChildOutcome.execFailed (some a0) rest streams.1 streams.2
    else
      match resolve env.path env.fexists a0 with
      | none => ChildOutcome.crash
      | some none => ChildOutcome.execFailed none rest streams.1 streams.2
      | some (some p) =>
        if env.execOk p then ChildOutcome.execed p rest streams.1 streams.2
        else ChildOutcome.execFailed (some p) rest streams.1 streams.2

/-- What the child process does after the `excute` call in `main`
(src/shell.c:229-233): if `execv` succeeded the child is the new program; if
`excute` returned -1 the child prints the cannot-run message and then falls
off the end of the `if` — there is no `exit` call — so it continues with the
rest of the loop body and the next iteration of the read-eval loop. -/
inductive ChildCont
  | replaced (prog : String)
  | crashed
  | continuesReadEvalLoop
deriving DecidableEq

def childBranch (env : Env) (tokens : List String) : ChildCont :=
  match excute env tokens with
  | ChildOutcome.execed p _ _ _ => ChildCont.replaced p
  | ChildOutcome.crash => ChildCont.crashed
  | ChildOutcome.execFailed _ _ _ _ => ChildCont.continuesReadEvalLoop

/-! ### The parent: builtin lookup, dispatch, and loop state -/

/-- The `cmd` fields of `cmd_table` (src/shell.c:52-58), in declaration
order. -/
def cmdTable : List String := ["?", "exit", "cd", "pwd", "wait"]

/-- Embeds `lookup` (src/shell.c:169-174): returns the first table index whose
name compares equal to `cmd` ; when `cmd` is NULL ( `none` , the tokenizer
result for an empty line) the guard `cmd && ...` is false on every iteration
and -1 is returned. -/
def lookup (cmd : Option String) : Option Nat :=
  match cmd with
  | none => none
  | some c => cmdTable.findIdx? (fun s => s == c)

/-- Embeds the background test at src/shell.c:224: dereferences the first
character of the last token, so any last token whose first character is `&`
triggers background mode.  An empty token list would index position -1, which
is undefined behavior; the claims only concern non-empty sequences and the
`none` branch is given the harmless value `false` . -/
def backgroundOf (tokens : List String) : Bool :=
  match tokens.getLast? with
  | none => false
  | some t => firstChar t == some '&'

/-- How `main` dispatches one tokenized line (src/shell.c:217-227): a builtin
index when `lookup` finds one; otherwise the external path, which first reads
the background flag and then calls `fork` at line 227 unconditionally — there
is no validation of the token sequence before the fork.  `crash` marks the
undefined token access at index -1 for an empty token list. -/
inductive Dispatch
  | builtin (idx : Nat)
  | externalFork (background : Bool)
  | crash
deriving DecidableEq

def dispatchOf (tokens : List String) : Dispatch :=
  match lookup tokens.head? with
  | some i => Dispatch.builtin i
  | none =>
    match tokens.getLast? with
    | none => Dispatch.crash
    | some t => Dispatch.externalFork (firstChar t == some '&')

/-- Parent-side process state that persists across iterations of the
read-eval loop: whether a SIGINT handler is installed via `sigaction`
(src/shell.c:242), whether SIGTTOU is ignored (src/shell.c:241), the global
`child_pid` (src/shell.c:34, assigned at :237), and the prompt line counter.
The globals start zero-initialized, so at program start no handler is
installed and `child_pid = 0` . -/
structure ShellState where
  sigintInstalled : Bool
  sigttouIgnored : Bool
  child_pid : Nat
  lineNum : Nat
deriving DecidableEq

def initShellState : ShellState :=
  { sigintInstalled := false, sigttouIgnored := false, child_pid := 0, lineNum := 0 }

/-- Parent-side effect of one iteration of the read-eval loop
(src/shell.c:212-254) on the persistent state, for a tokenized line and the
pid returned by `fork` .  A builtin touches none of the signal state; a
background external command skips the whole foreground block at :235-244; a
foreground external command runs `setpgid` , records `child_pid := pid` ,
ignores SIGTTOU, installs the SIGINT handler and waits.  Nothing in the loop
ever uninstalls a handler or clears `child_pid` ; the only per-iteration
cleanup is `tokens_destroy` .  The line counter increments every iteration
(the prompt print at :250). -/
def mainIteration (st : ShellState) (tokens : List String) (pid : Nat) :
    Option ShellState :=
  match dispatchOf tokens with
  | Dispatch.crash => none
  | Dispatch.builtin _ => some { st with lineNum := st.lineNum + 1 }
  | Dispatch.externalFork background =>
    if background then some { st with lineNum := st.lineNum + 1 }
    else
      some { st with child_pid := pid, sigintInstalled := true,
                     sigttouIgnored := true, lineNum := st.lineNum + 1 }

/-! ### Signal relay model

A small operating-system model for the foreground-interrupt scenario: two
processes (the shell and one foreground child), the SIGINT disposition of the
shell, and delivery semantics — a handled signal runs the handler in the
shell, an unhandled SIGINT terminates the receiving process.  After a
successful `execv` the child runs with default dispositions (exec resets
caught signals), which is the state modeled here. -/

def SIGINT : Nat := 2

def SIGTTOU : Nat := 22

/-- Embeds `handler` (src/shell.c:164-166): regardless of the delivered
signal number it sends SIGINT to the recorded `child_pid` ; the returned pair
is the `kill(child_pid, SIGINT)` call, as (target pid, signal). -/
def handler (_signum : Nat) (child_pid : Nat) : Nat × Nat :=
  (child_pid, SIGINT)

/-- SIGINT disposition of the shell process. -/
inductive Disp
  | default
  | ignore
  | installed
deriving DecidableEq

/-- Joint state of the shell and its one foreground child. -/
structure SysState where
  shellAlive : Bool
  childAlive : Bool
  child_pid : Nat
  sigintDisp : Disp
  waiting : Bool
  atPrompt : Bool
deriving DecidableEq

/-- Kernel delivery of signal `sig` to pid `target` : the foreground child
runs with default dispositions after exec, so a SIGINT addressed to its pid
terminates it; a signal addressed to any other pid changes nothing in this
two-process model. -/
def sendSignal (s : SysState) (target sig : Nat) : SysState :=
  if target = s.child_pid ∧ sig = SIGINT then { s with childAlive := false } else s

/-- Delivery of SIGINT to the shell process: with the handler installed the
shell runs `handler` , which performs its kill call; with default disposition
the shell itself would die; ignored delivery does nothing. -/
def deliverSigint (s : SysState) : SysState :=
  match s.sigintDisp with
  | Disp.installed =>
    sendSignal s (handler SIGINT s.child_pid).1 (handler SIGINT s.child_pid).2
  | Disp.default => { s with shellAlive := false }
  | Disp.ignore => s

/-- The blocking `waitpid` at src/shell.c:243 returns once the child has
terminated, after which the loop falls through to the prompt print at :250. -/
def waitReturns (s : SysState) : SysState :=
  if s.waiting ∧ s.childAlive = false then
    { s with waiting := false, atPrompt := true }
  else s

/-- System state set up by the foreground branch of `main`
(src/shell.c:234-243) while the child runs: `setpgid(pid, pid)` done,
`child_pid = pid` recorded, SIGINT handler installed, shell blocked in
`waitpid` with the child alive. -/
def foregroundSetup (pid : Nat) : SysState :=
  { shellAlive := true, childAlive := true, child_pid := pid,
    sigintDisp := Disp.installed, waiting := true, atPrompt := false }

/-! ### Concrete oracle environments used in the counterexample evaluations -/

/-- Environment with PATH `/bin` in which only `/bin/cat` exists and can be
executed, and every open succeeds. -/
def envCat : Env :=
  { path := some "/bin", fexists := fun s => s == "/bin/cat",
    openInOk := fun _ => true, openOutOk := fun _ => true,
    execOk := fun s => s == "/bin/cat" }

/-- Environment with PATH `/bin` in which no file exists at all. -/
def envNothing : Env :=
  { path := some "/bin", fexists := fun _ => false,
    openInOk := fun _ => true, openOutOk := fun _ => true,
    execOk := fun _ => false }

/-- Environment in which only `/bin/cat` exists and is executable but opening
`/nonexistent` for reading fails. -/
def envNoInput : Env :=
  { path := some "/bin", fexists := fun s => s == "/bin/cat",
    openInOk := fun _ => false, openOutOk := fun _ => true,
    execOk := fun s => s == "/bin/cat" }

/-- Environment with PATH `/bin` in which only `/bin/echo` exists and can be
executed, and every open succeeds. -/
def envEcho : Env :=
  { path := some "/bin", fexists := fun s => s == "/bin/echo",
    openInOk := fun _ => true, openOutOk := fun _ => true,
    execOk := fun s => s == "/bin/echo" }

/-! ### Helper lemmas about the scanning pass -/

/-- Unfolding lemma: a head token that is not a redirection operator is
appended to argv and scanning continues on the tail. -/
theorem planAux_cons_other (t : String) (rest : List String)
    (h1 : firstChar t ≠ some '<') (h2 : firstChar t ≠ some '>') :
    planAux (t :: rest) = (t :: (planAux rest).1, (planAux rest).2) := by
  cases rest with
  | nil => simp [planAux, h1, h2]
  | cons f rest => simp [planAux, h1, h2]

/-- Unfolding lemma: a head token whose first character is a redirection
operator consumes the following token as the filename and contributes nothing
to argv. -/
theorem planAux_cons_op (t f : String) (rest : List String)
    (h : firstChar t = some '<' ∨ firstChar t = some '>') :
    planAux (t :: f :: rest)
      = ((planAux rest).1,
         (if firstChar t = some '<' then Redir.input (some f)
          else Redir.output (some f)) :: (planAux rest).2) := by
  rcases h with h | h
  · simp [planAux, h]
  · have h1 : firstChar t ≠ some '<' := by simp [h]
    simp [planAux, h, h1]

/-- Every string placed in the argv side of the scan has a first character
other than the two operator characters. -/
theorem planAux_argv_firstChar :
    (ts : List String) → ∀ u ∈ (planAux ts).1,
      firstChar u ≠ some '<' ∧ firstChar u ≠ some '>'
  | [] => by simp [planAux]
  | [t] => by
    by_cases h1 : firstChar t = some '<'
    · simp [planAux, h1]
    · by_cases h2 : firstChar t = some '>'
      · simp [planAux, h1, h2]
      · simp only [planAux, if_neg h1, if_neg h2, List.mem_singleton]
        intro u hu
        subst hu
        exact ⟨h1, h2⟩
  | t :: f :: rest => by
    have ih1 := planAux_argv_firstChar rest
    have ih2 := planAux_argv_firstChar (f :: rest)
    by_cases h1 : firstChar t = some '<'
    · simpa [planAux, h1] using ih1
    · by_cases h2 : firstChar t = some '>'
      · simpa [planAux, h1, h2] using ih1
      · simp only [planAux, if_neg h1, if_neg h2, List.mem_cons]
        intro u hu
        rcases hu with hu | hu
        · subst hu; exact ⟨h1, h2⟩
        · exact ih2 u hu

/-- Every token of the input is accounted for by the scan: it reaches argv,
or it is an operator-position token (first character `<` or `>` ), or it is
recorded as the filename of a redirection action. -/
theorem planAux_mem :
    (ts : List String) → ∀ u ∈ ts,
      u ∈ (planAux ts).1
      ∨ firstChar u = some '<' ∨ firstChar u = some '>'
      ∨ Redir.input (some u) ∈ (planAux ts).2
      ∨ Redir.output (some u) ∈ (planAux ts).2
  | [] => by simp
  | [t] => by
    intro u hu
    rcases List.mem_singleton.mp hu with rfl
    by_cases h1 : firstChar u = some '<'
    · exact Or.inr (Or.inl h1)
    · by_cases h2 : firstChar u = some '>'
      · exact Or.inr (Or.inr (Or.inl h2))
      · refine Or.inl ?_
        simp [planAux, h1, h2]
  | t :: f :: rest => by
    intro u hu
    by_cases h1 : firstChar t = some '<'
    · rw [planAux_cons_op t f rest (Or.inl h1)]
      rcases List.mem_cons.mp hu with rfl | hu
      · exact Or.inr (Or.inl h1)
      · rcases List.mem_cons.mp hu with rfl | hu
        · refine Or.inr (Or.inr (Or.inr (Or.inl ?_)))
          simp [h1]
        · rcases planAux_mem rest u hu with h | h | h | h | h
          · exact Or.inl h
          · exact Or.inr (Or.inl h)
          · exact Or.inr (Or.inr (Or.inl h))
          · exact Or.inr (Or.inr (Or.inr (Or.inl (List.mem_cons_of_mem _ h))))
          · exact Or.inr (Or.inr (Or.inr (Or.inr (List.mem_cons_of_mem _ h))))
    · by_cases h2 : firstChar t = some '>'
      · rw [planAux_cons_op t f rest (Or.inr h2)]
        rcases List.mem_cons.mp hu with rfl | hu
        · exact Or.inr (Or.inr (Or.inl h2))
        · rcases List.mem_cons.mp hu with rfl | hu
          · refine Or.inr (Or.inr (Or.inr (Or.inr ?_)))
            simp [h1, h2]
          · rcases planAux_mem rest u hu with h | h | h | h | h
            · exact Or.inl h
            · exact Or.inr (Or.inl h)
            · exact Or.inr (Or.inr (Or.inl h))
            · exact Or.inr (Or.inr (Or.inr (Or.inl (List.mem_cons_of_mem _ h))))
            · exact Or.inr (Or.inr (Or.inr (Or.inr (List.mem_cons_of_mem _ h))))
      · rw [planAux_cons_other t (f :: rest) h1 h2]
        rcases List.mem_cons.mp hu with rfl | hu
        · exact Or.inl (List.mem_cons_self _ _)
        · rcases planAux_mem (f :: rest) u hu with h | h | h | h | h
          · exact Or.inl (List.mem_cons_of_mem _ h)
          · exact Or.inr (Or.inl h)
          · exact Or.inr (Or.inr (Or.inl h))
          · exact Or.inr (Or.inr (Or.inr (Or.inl h)))
          · exact Or.inr (Or.inr (Or.inr (Or.inr h)))

/-- A value produced by `getLast?` is a member of the list. -/
theorem mem_of_getLast?_eq {α : Type} (l : List α) (a : α)
    (h : l.getLast? = some a) : a ∈ l := by
  induction l with
  | nil => simp at h
  | cons x xs ih =>
    cases xs with
    | nil =>
      simp [List.getLast?] at h
      simp [h]
    | cons y ys =>
      rw [List.getLast?_cons_cons] at h
      exact List.mem_cons_of_mem _ (ih h)

/-! ### Claim theorems -/

/-- C1: the claim says a trailing redirection operator is rejected as
malformed before any open or fork, with no execution.  The code has no such
check: for the token sequence `cat <` , `main` dispatches to the external
branch (which forks unconditionally at src/shell.c:227), the scan records an
input redirection whose filename is the NULL out-of-range token, the
open of that NULL filename fails silently, and in an environment where
`/bin/cat` exists the child goes on to exec it with unmodified streams — the
command is executed, not rejected. -/
theorem trailing_redirection_not_rejected :
    dispatchOf ["cat", "<"] = Dispatch.externalFork false
    ∧ planAux ["cat", "<"] = (["cat"], [Redir.input none])
    ∧ excute envCat ["cat", "<"]
        = ChildOutcome.execed "/bin/cat" [] StreamSrc.inherited StreamSrc.inherited := by
  decide

/-- C2: the claim says a child whose program replacement failed terminates
and never continues interpreting the parent state.  In the code the child
branch of `main` (src/shell.c:229-233) only prints a message when `excute`
returns -1 and contains no exit call, so the child falls through into the
next iteration of the read-eval loop: for a program name that resolves to
nothing, the modeled child continuation is `continuesReadEvalLoop` . -/
theorem child_continues_loop_after_exec_failure :
    childBranch envNothing ["nosuchprog"] = ChildCont.continuesReadEvalLoop := by
  decide

/-- C3 counterexample: the claim quantifies over sequences with no token
equal to `<` or `>` , but the code keys on the first character only.  The
sequence `a >b c` contains no token equal to either operator, yet the scan
treats `>b` as an output operator, consumes `c` as its filename, and returns
argv `[a]` — not the identity. -/
theorem planAux_not_identity_without_equal_operator_token :
    ("<" ∉ ["a", ">b", "c"] ∧ ">" ∉ ["a", ">b", "c"])
    ∧ planAux ["a", ">b", "c"] = (["a"], [Redir.output (some "c")])
    ∧ planAux ["a", ">b", "c"] ≠ (["a", ">b", "c"], []) := by
  decide

/-- C3 amended: for every token sequence in which no token has first
character `<` or `>` , the scanning pass is the identity on the tokens and
records no redirection actions. -/
theorem planAux_identity_no_operator_first_char (ts : List String)
    (h : ∀ t ∈ ts, firstChar t ≠ some '<' ∧ firstChar t ≠ some '>') :
    planAux ts = (ts, []) := by
  induction ts with
  | nil => rfl
  | cons t rest ih =>
    have ht := h t (List.mem_cons_self t rest)
    rw [planAux_cons_other t rest ht.1 ht.2,
        ih (fun u hu => h u (List.mem_cons_of_mem t hu))]

/-- Witness for the amended C3 theorem at the concrete sequence `echo hi` . -/
theorem planAux_identity_no_operator_first_char_witness :
    (∀ t ∈ ["echo", "hi"], firstChar t ≠ some '<' ∧ firstChar t ≠ some '>')
    ∧ planAux ["echo", "hi"] = (["echo", "hi"], []) :=
  ⟨by decide, planAux_identity_no_operator_first_char ["echo", "hi"] (by decide)⟩

/-- C4 counterexample: the claim says `resolve` returns NotFound when PATH is
absent or empty.  In the code an absent PATH reaches `strlen(NULL)` at
src/shell.c:104 and an empty PATH makes `strtok` return NULL, reaching
`strlen(NULL)` at line 107 — both crash (modeled `none` ) instead of
returning the NULL not-found value (modeled `some none` ). -/
theorem resolve_crashes_on_absent_or_empty_path :
    resolve none (fun _ => false) "ls" = none
    ∧ resolve none (fun _ => false) "ls" ≠ some none
    ∧ resolve (some "") (fun _ => false) "ls" = none
    ∧ resolve (some "") (fun _ => false) "ls" ≠ some none := by
  decide

/-- C4 amended: for a PATH whose `strtok` segment list is non-empty,
`resolve` returns the first candidate `segment ++ "/" ++ name` that exists,
in listed order, and the NULL not-found value when no candidate exists; when
PATH is absent or empty the function crashes on a NULL dereference instead of
returning NotFound. -/
theorem resolve_first_existing_candidate (p : String) (fexists : String → Bool)
    (name : String) (h : splitSegs p ≠ []) :
    resolve (some p) fexists name = some (firstExisting fexists name (splitSegs p))
    ∧ resolve none fexists name = none
    ∧ resolve (some "") fexists name = none := by
  refine ⟨?_, rfl, ?_⟩
  · obtain ⟨seg, rest, hsr⟩ := List.exists_cons_of_ne_nil h
    by_cases hf : fexists (seg ++ "/" ++ name) <;>
      simp [resolve, hsr, firstExisting, hf]
  · have h0 : splitSegs "" = ([] : List String) := rfl
    simp [resolve, h0]

/-- Witness for the amended C4 theorem: with PATH `/bin:/usr/bin` and a name
existing only under `/usr/bin` , the first existing candidate is
`/usr/bin/ls` . -/
theorem resolve_first_existing_candidate_witness :
    splitSegs "/bin:/usr/bin" ≠ []
    ∧ (resolve (some "/bin:/usr/bin") (fun s => s == "/usr/bin/ls") "ls"
        = some (firstExisting (fun s => s == "/usr/bin/ls") "ls"
            (splitSegs "/bin:/usr/bin"))
       ∧ resolve none (fun s => s == "/usr/bin/ls") "ls" = none
       ∧ resolve (some "") (fun s => s == "/usr/bin/ls") "ls" = none) :=
  ⟨by decide,
   resolve_first_existing_candidate "/bin:/usr/bin"
     (fun s => s == "/usr/bin/ls") "ls" (by decide)⟩

/-- C5 counterexample: the claim says output redirection opens in
create-or-truncate mode.  The open call at src/shell.c:149 passes
`O_WRONLY | O_CREAT` only — the truncate bit is absent, so an existing file
is overwritten from offset 0 without being truncated. -/
theorem output_open_lacks_truncate_flag :
    (openCallOf (Redir.output (some "out"))).flags ≠ specOutputFlags
    ∧ (openCallOf (Redir.output (some "out"))).flags &&& O_TRUNC = 0 := by
  decide

/-- C5 amended: input redirection opens read-only with no mode argument;
output redirection opens write-only with the create flag and owner
read/write/execute permission bits but without the truncate flag. -/
theorem open_call_modes (p : String) :
    openCallOf (Redir.input (some p)) = ⟨some p, O_RDONLY, none⟩
    ∧ openCallOf (Redir.output (some p))
        = ⟨some p, O_WRONLY ||| O_CREAT, some S_IRWXU⟩
    ∧ (openCallOf (Redir.output (some p))).flags &&& O_TRUNC = 0 :=
  ⟨rfl, rfl, by
    show (O_WRONLY ||| O_CREAT) &&& O_TRUNC = 0
    decide⟩

/-- C6: the claim says a child whose redirection target fails to open reports
the error and terminates without reaching exec.  The code checks neither
`open` nor `dup2` (src/shell.c:142-152): for `cat < /nonexistent` with the
input open failing, the child proceeds to exec `/bin/cat` with both standard
streams unmodified. -/
theorem exec_proceeds_after_failed_open :
    excute envNoInput ["cat", "<", "/nonexistent"]
      = ChildOutcome.execed "/bin/cat" [] StreamSrc.inherited StreamSrc.inherited := by
  decide

/-- C7: with the foreground setup of src/shell.c:234-243 in place (child pid
recorded, SIGINT handler installed, shell blocked in waitpid), delivering
SIGINT to the shell runs `handler` , which forwards SIGINT to exactly the
recorded child pid; the child (default dispositions after exec) terminates,
the shell stays alive, and once waitpid returns the shell reaches the prompt. -/
theorem sigint_relay_kills_child_not_shell (pid : Nat) :
    handler SIGINT pid = (pid, SIGINT)
    ∧ (deliverSigint (foregroundSetup pid)).childAlive = false
    ∧ (deliverSigint (foregroundSetup pid)).shellAlive = true
    ∧ (waitReturns (deliverSigint (foregroundSetup pid))).atPrompt = true
    ∧ (waitReturns (deliverSigint (foregroundSetup pid))).shellAlive = true := by
  refine ⟨rfl, ?_, ?_, ?_, ?_⟩ <;>
    simp [deliverSigint, foregroundSetup, sendSignal, waitReturns, handler]

/-- C8: the claim says no installed signal handler or recorded foreground
child pid survives into the next loop iteration.  Starting from the
zero-initialized state, one iteration running the foreground command
`sleep 100` (forked pid 77) ends — and the next iteration therefore begins —
with the SIGINT handler still installed and `child_pid = 77` still recorded:
nothing in the loop restores either. -/
theorem handler_and_child_pid_survive_iteration :
    initShellState.sigintInstalled = false
    ∧ initShellState.child_pid = 0
    ∧ (mainIteration initShellState ["sleep", "100"] 77).map
        (fun s => (s.sigintInstalled, s.child_pid)) = some (true, 77) := by
  decide

/-- C9 counterexample: the claim says every token whose first character is
`<` or `>` is classified as an operator whose following token is consumed as
the filename.  In `> >o x` the token `>o` has first character `>` but is
itself consumed as the filename of the preceding operator, and its following
token `x` is not consumed — it ends up in argv. -/
theorem filename_position_operator_token :
    firstChar ">o" = some '>'
    ∧ planAux [">", ">o", "x"] = (["x"], [Redir.output (some ">o")])
    ∧ "x" ∈ (planAux [">", ">o", "x"]).1 := by
  decide

/-- C9 amended: at a scan position, a token whose first character is `<` or
`>` (multi-character tokens included) contributes nothing to argv, records a
redirection of the corresponding kind, and consumes the immediately following
token as the filename; moreover no token whose first character is `<` or `>`
ever appears in the produced argument vector. -/
theorem redirection_scan_first_char (t f : String) (rest : List String)
    (h : firstChar t = some '<' ∨ firstChar t = some '>') :
    planAux (t :: f :: rest)
      = ((planAux rest).1,
         (if firstChar t = some '<' then Redir.input (some f)
          else Redir.output (some f)) :: (planAux rest).2)
    ∧ t ∉ (planAux (t :: f :: rest)).1 := by
  refine ⟨planAux_cons_op t f rest h, ?_⟩
  intro hmem
  have h2 := planAux_argv_firstChar (t :: f :: rest) t hmem
  rcases h with h | h
  · exact h2.1 h
  · exact h2.2 h

/-- Witness for the amended C9 theorem at the concrete tokens `>out x` . -/
theorem redirection_scan_first_char_witness :
    (firstChar ">out" = some '<' ∨ firstChar ">out" = some '>')
    ∧ (planAux [">out", "x"]
        = ((planAux ([] : List String)).1,
           (if firstChar ">out" = some '<' then Redir.input (some "x")
            else Redir.output (some "x")) :: (planAux ([] : List String)).2)
       ∧ ">out" ∉ (planAux [">out", "x"]).1) :=
  ⟨by decide, redirection_scan_first_char ">out" "x" [] (by decide)⟩

/-- C10 counterexample: the claim says the argv passed to execv of every
background command still contains the trailing `&` token.  For `echo > &`
background detection triggers (last token starts with `&` ) but the `&` is
consumed as the output-redirection filename: the child execs `/bin/echo` with
argv `[/bin/echo]` , which does not contain `&` , and stdout redirected to a
file named `&` . -/
theorem background_ampersand_consumed_as_filename :
    backgroundOf ["echo", ">", "&"] = true
    ∧ excute envEcho ["echo", ">", "&"]
        = ChildOutcome.execed "/bin/echo" [] StreamSrc.inherited (StreamSrc.file "&")
    ∧ "&" ∉ ("/bin/echo" :: ([] : List String)) := by
  decide

/-- C10 amended: background detection triggers on any last token whose first
character is `&` , and the scan never strips the trailing token as such — it
either reaches the argument vector or is recorded as the filename of an
immediately preceding redirection operator. -/
theorem background_detection_and_ampersand_retention (ts : List String)
    (t : String) (h1 : ts.getLast? = some t) (h2 : firstChar t = some '&') :
    backgroundOf ts = true
    ∧ (t ∈ (planAux ts).1
       ∨ Redir.input (some t) ∈ (planAux ts).2
       ∨ Redir.output (some t) ∈ (planAux ts).2) := by
  constructor
  · simp [backgroundOf, h1, h2]
  · have hm : t ∈ ts := mem_of_getLast?_eq ts t h1
    rcases planAux_mem ts t hm with h | h | h | h | h
    · exact Or.inl h
    · rw [h2] at h
      exact absurd h (by decide)
    · rw [h2] at h
      exact absurd h (by decide)
    · exact Or.inr (Or.inl h)
    · exact Or.inr (Or.inr h)

/-- Witness for the amended C10 theorem at the concrete tokens
`echo hi &` , where the trailing token reaches the argument vector. -/
theorem background_detection_and_ampersand_retention_witness :
    ["echo", "hi", "&"].getLast? = some "&"
    ∧ firstChar "&" = some '&'
    ∧ (backgroundOf ["echo", "hi", "&"] = true
       ∧ ("&" ∈ (planAux ["echo", "hi", "&"]).1
          ∨ Redir.input (some "&") ∈ (planAux ["echo", "hi", "&"]).2
          ∨ Redir.output (some "&") ∈ (planAux ["echo", "hi", "&"]).2)) :=
  ⟨by decide, by decide,
   background_detection_and_ampersand_retention ["echo", "hi", "&"] "&"
     (by decide) (by decide)⟩
